import Mathlib

/-!
Shallow embedding of the MCP Gitee pull-request server
(`src/server-final.js`) and proofs about it.

The embedding covers:
* the branch-name display formatter `formatBranchName`;
* the label pre-processing performed by `createGiteePullRequest`;
* the OAuth access-token cache `getAccessToken` and a small interleaving
  model of two concurrent callers of it;
* the `pr` tool workflow (create → auto-review → auto-test → auto-merge)
  with its per-step failure isolation and merge gate;
* the JSON-RPC dispatcher `handleRequest` with its envelope validation,
  method routing, operation-log appends and `initialized` flag.

JavaScript values are modelled with `Option` (absent / `null` /
`undefined` collapse to `none` where the code treats them alike), machine
time `Date.now()` is an explicit `Nat` (milliseconds), and HTTPS calls are
oracle inputs: each upstream request's outcome is a parameter of the
function modelling the caller.
-/

namespace GiteeSrv

/-- Characters removed by JavaScript `String.prototype.trim` and matched by
the regex class `\s` (restricted to the code points the repository can
meet in branch names; the common ASCII whitespace plus NBSP and BOM). -/
def isJsWhite (c : Char) : Bool :=
  c == ' ' || c == '\t' || c == '\n' || c == '\r' || c == '\x0b' ||
  c == '\x0c' || c == '\u00A0' || c == '\uFEFF'

/-- JavaScript `trim` on a character list: drop whitespace from both ends. -/
def trimChars (l : List Char) : List Char :=
  ((l.dropWhile isJsWhite).reverse.dropWhile isJsWhite).reverse

/-- JavaScript `s.trim()`. -/
def jsTrim (s : String) : String :=
  ⟨trimChars s.data⟩

/-- ASCII lower-casing of one character, as used by a case-insensitive
regex match on `branch`. -/
def lowerAscii (c : Char) : Char :=
  if 'A' ≤ c ∧ c ≤ 'Z' then Char.ofNat (c.toNat + 32) else c

/-- Case-insensitive pattern matching: strip the pattern `pat` from the
front of `l`, returning the remainder on success. -/
def stripCaseIns : List Char → List Char → Option (List Char)
  | [], rest => some rest
  | _ :: _, [] => none
  | p :: ps, c :: cs =>
    if lowerAscii c == lowerAscii p then stripCaseIns ps cs else none

/-- Remainder of the regex `[^)]+\)$` after its first character: consume
non-`)` characters; at the first `)` the input must end. -/
def innerTail : List Char → Bool
  | [] => false
  | c :: rs => if c == ')' then rs.isEmpty else innerTail rs

/-- The regex fragment `[^)]+\)$`: at least one non-`)` character, then a
closing parenthesis, then the end of the input. -/
def innerChk : List Char → Bool
  | [] => false
  | c :: rs => if c == ')' then false else innerTail rs

/-- The literal pattern `branch` of the display-form regex. -/
def branchPat : List Char := ['b', 'r', 'a', 'n', 'c', 'h']

/-- The test `/^branch\s*\([^)]+\)$/i.test(trimmed)` from
`formatBranchName`: case-insensitive `branch`, optional whitespace, an
opening parenthesis, a non-empty run of non-`)` characters, a closing
parenthesis, end of input. -/
def branchPatternTest (l : List Char) : Bool :=
  match stripCaseIns branchPat l with
  | none => false
  | some r =>
    match r.dropWhile isJsWhite with
    | [] => false
    | c :: rest => if c == '(' then innerChk rest else false

/-- The source's `formatBranchName`: non-string and falsy (empty) inputs
are returned as-is; otherwise the input is trimmed, returned if it already
matches `/^branch\s*\([^)]+\)$/i`, and wrapped as `branch (<trimmed>)`
otherwise. -/
def formatBranchName (branchName : String) : String :=
  if branchName = "" then branchName
  else
    let trimmed := jsTrim branchName
    if branchPatternTest trimmed.data then trimmed
    else "branch (" ++ trimmed ++ ")"

/-- JavaScript `s.split(',')` on a character list. -/
def splitComma : List Char → List (List Char)
  | [] => [[]]
  | c :: rest =>
    if c == ',' then [] :: splitComma rest
    else
      match splitComma rest with
      | [] => [[c]]
      | t :: ts => (c :: t) :: ts

/-- Character class of the label regex `/^[a-zA-Z0-9_一-龥]+$/`
from `createGiteePullRequest`: ASCII letters, digits, underscore, and the
CJK unified-ideograph range U+4E00 to U+9FA5. -/
def isLabelChar (c : Char) : Bool :=
  (decide ('a' ≤ c) && decide (c ≤ 'z')) || (decide ('A' ≤ c) && decide (c ≤ 'Z')) ||
  (decide ('0' ≤ c) && decide (c ≤ '9')) || c == '_' ||
  (decide (0x4e00 ≤ c.toNat) && decide (c.toNat ≤ 0x9fa5))

/-- Per-label validation from `createGiteePullRequest`: length between 2
and 20, and every character in the allowed class. -/
def validLabel (l : List Char) : Bool :=
  decide (2 ≤ l.length) && decide (l.length ≤ 20) && l.all isLabelChar

/-- The `for (const label of labelArray)` loop of
`createGiteePullRequest`: labels failing validation are skipped (with a
logged warning), surviving ones are pushed in order. -/
def collectValid : List (List Char) → List (List Char)
  | [] => []
  | l :: ls => if validLabel l then l :: collectValid ls else collectValid ls

/-- The `labelArray` construction: comma-split, trim each entry, drop
empty entries. -/
def labelCandidates (env : List Char) : List (List Char) :=
  ((splitComma env).map trimChars).filter (fun s => !s.isEmpty)

/-- Labels field of the create request body. `LABELS_ENV` is the trimmed
environment value `(process.env.labels || '').trim()`; the body gets a
`labels` field only when it is non-empty and at least one label survives
validation, and the field is omitted (`none`) otherwise. -/
def processLabels (labelsEnvRaw : String) : Option (List String) :=
  if (trimChars labelsEnvRaw.data).isEmpty then none
  else if (collectValid (labelCandidates (trimChars labelsEnvRaw.data))).isEmpty then none
  else some ((collectValid (labelCandidates (trimChars labelsEnvRaw.data))).map
    fun l => (⟨l⟩ : String))

instance {α β : Type} [DecidableEq α] [DecidableEq β] : DecidableEq (Except α β) := fun a b =>
  match a, b with
  | .ok x, .ok y =>
    if h : x = y then isTrue (by rw [h]) else isFalse (fun hh => h (by cases hh; rfl))
  | .error x, .error y =>
    if h : x = y then isTrue (by rw [h]) else isFalse (fun hh => h (by cases hh; rfl))
  | .ok _, .error _ => isFalse (fun hh => Except.noConfusion hh)
  | .error _, .ok _ => isFalse (fun hh => Except.noConfusion hh)

/-- State of the in-memory access-token cache: the module-level variables
`cachedAccessToken` (initially `null`) and `tokenExpiresAt` (milliseconds
since the epoch, initially 0). -/
structure TokenState where
  cachedAccessToken : Option String
  tokenExpiresAt : Nat
deriving DecidableEq

/-- Error shape rejected by the HTTPS helpers: an HTTP status code (0 for
transport errors) and a message. -/
structure UpstreamErr where
  statusCode : Nat
  errMsg : String
deriving DecidableEq

/-- Body of a successful OAuth token response: `access_token` plus the
optional `expires_in` lifetime in seconds. -/
structure TokenResp where
  access_token : String
  expires_in : Option Nat
deriving DecidableEq

/-- JavaScript truthiness of the cached token: `null` and the empty
string are falsy. -/
def tokenTruthy : Option String → Bool
  | none => false
  | some s => !(s == "")

/-- The lifetime selection `parsed.expires_in || 3600`: the 3600-second
default applies when `expires_in` is absent, and also when it is `0`,
because `0` is falsy in JavaScript. -/
def tokenLifetime (r : TokenResp) : Nat :=
  match r.expires_in with
  | some n => if n == 0 then 3600 else n
  | none => 3600

/-- The cache-validity check of `getAccessToken`:
`cachedAccessToken && tokenExpiresAt > now + 5 * 60 * 1000`. -/
def cacheHit (st : TokenState) (now : Nat) : Bool :=
  tokenTruthy st.cachedAccessToken && decide (st.tokenExpiresAt > now + 5 * 60 * 1000)

/-- Outcome of one `getAccessToken()` call: the resolved or rejected
value, the cache state afterwards, and whether an OAuth exchange was
issued. -/
structure TokenOut where
  result : Except UpstreamErr String
  state : TokenState
  exchanged : Bool
deriving DecidableEq

/-- The source's `getAccessToken`, with `Date.now()` and the outcome of
the OAuth exchange passed in explicitly. A valid cached token is returned
without any exchange; otherwise the exchange runs and, on success, the
token is cached with `tokenExpiresAt = now + (expires_in || 3600) * 1000`;
on failure nothing is cached and the rejection is propagated. -/
def getAccessToken (st : TokenState) (now : Nat)
    (exchange : Except UpstreamErr TokenResp) : TokenOut :=
  if cacheHit st now then
    { result := .ok (st.cachedAccessToken.getD ""), state := st, exchanged := false }
  else
    match exchange with
    | .ok resp =>
      { result := .ok resp.access_token
        state := { cachedAccessToken := some resp.access_token
                   tokenExpiresAt := now + tokenLifetime resp * 1000 }
        exchanged := true }
    | .error e => { result := .error e, state := st, exchanged := true }

/-- Phases of one in-flight `getAccessToken` call, for reasoning about
concurrent callers. Phase 0 is the synchronous cache check, phase 1 the
awaited OAuth exchange (counted), phase 2 the cache store performed in the
response callback, phase 3 done. Between the check and the store the call
is suspended on network I/O, which is where another caller can run. The
triple is (shared cache, shared exchange counter, this call's phase). -/
def tokenPhase (now : Nat) (resp : TokenResp) :
    TokenState × Nat × Nat → TokenState × Nat × Nat
  | (c, n, 0) => if cacheHit c now then (c, n, 3) else (c, n, 1)
  | (c, n, 1) => (c, n + 1, 2)
  | (_, n, 2) =>
    ({ cachedAccessToken := some resp.access_token
       tokenExpiresAt := now + tokenLifetime resp * 1000 }, n, 3)
  | s => s

/-- Shared state of two concurrent `getAccessToken` callers. -/
structure RaceState where
  cache : TokenState
  exchCount : Nat
  pc1 : Nat
  pc2 : Nat
deriving DecidableEq

/-- Run one atomic phase of caller 1 (`who = false`) or caller 2
(`who = true`). -/
def raceStep (now : Nat) (resp : TokenResp) (s : RaceState) (who : Bool) : RaceState :=
  if who then
    match tokenPhase now resp (s.cache, s.exchCount, s.pc2) with
    | (c, n, p) => { cache := c, exchCount := n, pc1 := s.pc1, pc2 := p }
  else
    match tokenPhase now resp (s.cache, s.exchCount, s.pc1) with
    | (c, n, p) => { cache := c, exchCount := n, pc1 := p, pc2 := s.pc2 }

/-- Run the two concurrent callers under an interleaving schedule. -/
def raceRun (now : Nat) (resp : TokenResp) : List Bool → RaceState → RaceState
  | [], s => s
  | w :: ws, s => raceRun now resp ws (raceStep now resp s w)

/-- The `title` argument of the `pr` tool as received over JSON: absent,
present but not a string, or a string. -/
inductive TitleArg where
  | missing
  | nonString
  | str (s : String)
deriving DecidableEq

/-- Fields of a created pull request read by the workflow and the
response builder (cosmetic fields omitted). -/
structure PrPayload where
  number : Option Nat
  html_url : Option String
  url : Option String
deriving DecidableEq

/-- Response resolved by `makeGiteeRequest`: the HTTP status code and the
parsed body, `none` when the 2xx body was empty. -/
structure GiteeResp where
  statusCode : Nat
  data : Option PrPayload
deriving DecidableEq

/-- Value caught by the `pr` tool's `catch`: a rejected upstream call
(an object with `statusCode` and `error`) or a thrown JavaScript `Error`
(only a `message`). -/
inductive PrThrown where
  | upstream (e : UpstreamErr)
  | jsError (message : String)
deriving DecidableEq

/-- Outcomes of the four upstream REST endpoints during one `pr` call. -/
structure StepOracle where
  create : Except UpstreamErr GiteeResp
  review : Except UpstreamErr GiteeResp
  test : Except UpstreamErr GiteeResp
  merge : Except UpstreamErr GiteeResp
deriving DecidableEq

/-- The workflow flags `AUTO_REVIEW`, `AUTO_TEST`, `AUTO_MERGE`. -/
structure WorkflowFlags where
  autoReview : Bool
  autoTest : Bool
  autoMerge : Bool
deriving DecidableEq

/-- Upstream calls issued during one `pr` invocation. The token exchange
is the one performed by `getAccessToken` inside the create step's
`makeGiteeRequest`; later steps reuse the warm cache. -/
inductive ApiCall where
  | tokenExchange
  | createPR
  | reviewPR
  | testPR
  | mergePR
deriving DecidableEq

/-- JavaScript falsiness of an optional string (absent or empty). -/
def strFalsy : Option String → Bool
  | none => true
  | some s => s == ""

/-- JavaScript `a || b || null` over two optional strings, as in
`result.data.html_url || result.data.url || null`. -/
def jsOrStr (a b : Option String) : Option String :=
  if strFalsy a then (if strFalsy b then none else b) else a

/-- JavaScript `result.data.number || null` (`0` is falsy). -/
def jsOrNum (a : Option Nat) : Option Nat :=
  match a with
  | some n => if n == 0 then none else some n
  | none => none

/-- The guard `result.data && result.data.number` of the auto-review,
auto-test and auto-merge steps. -/
def respHasNumber (r : GiteeResp) : Bool :=
  match r.data with
  | some p =>
    match p.number with
    | some n => !(n == 0)
    | none => false
  | none => false

/-- Success response of the `pr` tool (`success: true`; message strings
omitted). The `auto_review` / `auto_test` / `auto_merge` fields are
included only when the corresponding step ran and resolved. -/
structure PrSuccess where
  payload : PrPayload
  url : Option String
  number : Option Nat
  auto_review : Option GiteeResp
  auto_test : Option GiteeResp
  auto_merge : Option GiteeResp
deriving DecidableEq

/-- Failure payload returned (not thrown) by the `pr` tool
(`success: false`): the formatted error message and
`err.statusCode || null`. -/
structure PrFailure where
  errMsg : String
  statusCode : Option Nat
deriving DecidableEq

/-- The display `err.error || err.message` used in the failure path. -/
def thrownDisplay : PrThrown → String
  | .upstream e => e.errMsg
  | .jsError m => m

/-- The failure object built in the `catch` of the `pr` tool. -/
def mkFailure (t : PrThrown) : PrFailure :=
  { errMsg := "Gitee Pull Request creation failed: " ++ thrownDisplay t ++
      (match t with
       | .upstream e =>
         if e.statusCode == 0 then "" else " (Status: " ++ toString e.statusCode ++ ")"
       | .jsError _ => "")
    statusCode :=
      match t with
      | .upstream e => if e.statusCode == 0 then none else some e.statusCode
      | .jsError _ => none }

/-- Result of the `pr` tool: always an object, either the success
response or the structured failure payload. -/
inductive PrResult where
  | ok (s : PrSuccess)
  | fail (f : PrFailure)
deriving DecidableEq

/-- Trace of one `pr` invocation: its returned result, the upstream calls
issued, the `logRequest` method names appended in order, and the token
cache afterwards. -/
structure PrRun where
  result : PrResult
  calls : List ApiCall
  logs : List String
  tok : TokenState
deriving DecidableEq

/-- The check `!title || typeof title !== 'string' || title.trim() === ''`
of `createGiteePullRequest`. -/
def invalidTitle : TitleArg → Bool
  | .missing => true
  | .nonString => true
  | .str s => s == "" || (trimChars s.data).isEmpty

/-- Result of an optional follow-up step (auto review or auto test): the
step runs only when its flag is set and the created PR carries a number; a
rejection is caught and leaves the step result `null`. -/
def stepResult (flag : Bool) (hasNum : Bool) (out : Except UpstreamErr GiteeResp) :
    Option GiteeResp :=
  if flag && hasNum then
    match out with
    | .ok r => some r
    | .error _ => none
  else none

/-- Upstream call issued by an optional follow-up step (present whether
the step resolves or rejects). -/
def stepCalls (flag : Bool) (hasNum : Bool) (tag : ApiCall) : List ApiCall :=
  if flag && hasNum then [tag] else []

/-- Log entry appended by an optional follow-up step (one entry whether
the step resolves or rejects). -/
def stepLogs (flag : Bool) (hasNum : Bool) (logName : String) : List String :=
  if flag && hasNum then [logName] else []

/-- The merge gate `shouldMerge = (!AUTO_TEST || testResult !== null)`. -/
def mergeGate (fl : WorkflowFlags) (testResult : Option GiteeResp) : Bool :=
  !fl.autoTest || testResult.isSome

/-- Result of the auto-merge step: runs only when `AUTO_MERGE` is set, the
PR carries a number, and the gate holds; a rejection is caught. -/
def mergeResultOf (fl : WorkflowFlags) (hasNum : Bool) (testResult : Option GiteeResp)
    (out : Except UpstreamErr GiteeResp) : Option GiteeResp :=
  if fl.autoMerge && hasNum && mergeGate fl testResult then
    match out with
    | .ok r => some r
    | .error _ => none
  else none

/-- Upstream call issued by the auto-merge step. -/
def mergeCalls (fl : WorkflowFlags) (hasNum : Bool) (testResult : Option GiteeResp) :
    List ApiCall :=
  if fl.autoMerge && hasNum && mergeGate fl testResult then [ApiCall.mergePR] else []

/-- Log entry appended by the auto-merge step. -/
def mergeLogs (fl : WorkflowFlags) (hasNum : Bool) (testResult : Option GiteeResp) :
    List String :=
  if fl.autoMerge && hasNum && mergeGate fl testResult then ["auto_merge"] else []

/-- Token exchange recorded by the create step's `makeGiteeRequest`. -/
def tokenCalls (tok : TokenState) (now : Nat) (exch : Except UpstreamErr TokenResp) :
    List ApiCall :=
  if (getAccessToken tok now exch).exchanged then [ApiCall.tokenExchange] else []

/-- The success response built after the steps. Reading `html_url` from a
`null` create payload throws a `TypeError`, which the `catch` block then
turns into a failure payload. -/
def buildResponse (r : GiteeResp) (rev tst mrg : Option GiteeResp) :
    Except PrThrown PrSuccess :=
  match r.data with
  | none => .error (.jsError "Cannot read properties of null (reading 'html_url')")
  | some p =>
    .ok { payload := p, url := jsOrStr p.html_url p.url, number := jsOrNum p.number
          auto_review := rev, auto_test := tst, auto_merge := mrg }

/-- The `pr` tool of `FinalMCPServer`: title validation, token
acquisition, the create call, then the failure-isolated auto-review,
auto-test and gated auto-merge steps, then the response builder; every
thrown or rejected value reaching the single `catch` becomes a returned
structured failure payload. -/
def prTool (fl : WorkflowFlags) (tok : TokenState) (now : Nat)
    (exch : Except UpstreamErr TokenResp) (o : StepOracle) (titleArg : TitleArg) : PrRun :=
  if invalidTitle titleArg then
    { result := .fail (mkFailure (.jsError "Missing or invalid title parameter"))
      calls := [], logs := ["pr"], tok := tok }
  else
    match (getAccessToken tok now exch).result with
    | .error e =>
      { result := .fail (mkFailure (.upstream e))
        calls := tokenCalls tok now exch, logs := ["pr"]
        tok := (getAccessToken tok now exch).state }
    | .ok _ =>
      match o.create with
      | .error e =>
        { result := .fail (mkFailure (.upstream e))
          calls := tokenCalls tok now exch ++ [ApiCall.createPR], logs := ["pr"]
          tok := (getAccessToken tok now exch).state }
      | .ok r =>
        match buildResponse r
          (stepResult fl.autoReview (respHasNumber r) o.review)
          (stepResult fl.autoTest (respHasNumber r) o.test)
          (mergeResultOf fl (respHasNumber r)
            (stepResult fl.autoTest (respHasNumber r) o.test) o.merge) with
        | .ok s =>
          { result := .ok s
            calls := tokenCalls tok now exch ++ [ApiCall.createPR] ++
              stepCalls fl.autoReview (respHasNumber r) ApiCall.reviewPR ++
              stepCalls fl.autoTest (respHasNumber r) ApiCall.testPR ++
              mergeCalls fl (respHasNumber r)
                (stepResult fl.autoTest (respHasNumber r) o.test)
            logs := ["pr"] ++ stepLogs fl.autoReview (respHasNumber r) "auto_review" ++
              stepLogs fl.autoTest (respHasNumber r) "auto_test" ++
              mergeLogs fl (respHasNumber r)
                (stepResult fl.autoTest (respHasNumber r) o.test)
            tok := (getAccessToken tok now exch).state }
        | .error thr =>
          { result := .fail (mkFailure thr)
            calls := tokenCalls tok now exch ++ [ApiCall.createPR] ++
              stepCalls fl.autoReview (respHasNumber r) ApiCall.reviewPR ++
              stepCalls fl.autoTest (respHasNumber r) ApiCall.testPR ++
              mergeCalls fl (respHasNumber r)
                (stepResult fl.autoTest (respHasNumber r) o.test)
            logs := ["pr"] ++ stepLogs fl.autoReview (respHasNumber r) "auto_review" ++
              stepLogs fl.autoTest (respHasNumber r) "auto_test" ++
              mergeLogs fl (respHasNumber r)
                (stepResult fl.autoTest (respHasNumber r) o.test) ++ ["pr"]
            tok := (getAccessToken tok now exch).state }

/-- Does `pat` occur at the start of `l` (character-exact), as in
JavaScript `startsWith`. -/
def isStart : List Char → List Char → Bool
  | [], _ => true
  | _ :: _, [] => false
  | p :: ps, c :: cs => p == c && isStart ps cs

/-- Does `pat` occur anywhere in `l`, as in JavaScript `includes`. -/
def hasSub (pat : List Char) : List Char → Bool
  | [] => pat.isEmpty
  | c :: rest => isStart pat (c :: rest) || hasSub pat rest

/-- Correlation identifier of a request (JSON-RPC `id`); `none` models an
absent or `null` id, which the code answers with `null` alike. -/
inductive JsonRpcId where
  | num (n : Int)
  | str (s : String)
deriving DecidableEq

/-- Client capability flags read from `initialize` params
(truthiness of `params.capabilities.{prompts,resources,logging,roots}`). -/
structure InitCaps where
  prompts : Bool
  resources : Bool
  logging : Bool
  roots : Bool
deriving DecidableEq

/-- Structured `params` of a request, reduced to the members the
dispatcher reads: `protocolVersion` and `capabilities` for `initialize`,
`name` and `arguments` for `tools/call` (the `pr` title, and the `logs`
limit and offset, modelled as integers when present). -/
structure ReqParams where
  protocolVersion : Option String
  caps : InitCaps
  toolName : Option String
  toolTitle : TitleArg
  logsLimit : Option Int
  logsOffset : Option Int
deriving DecidableEq

/-- An inbound record: not an object at all, or an object with optional
`jsonrpc`, `id`, `method` and `params` members. A non-string `method`
value takes the same path as an absent one and is merged into `none`. -/
inductive RpcRequest where
  | notObject
  | obj (jsonrpc : Option String) (id : Option JsonRpcId) (method : Option String)
      (params : Option ReqParams)
deriving DecidableEq

/-- JSON-RPC error object: code and message. -/
structure RpcError where
  code : Int
  message : String
deriving DecidableEq

/-- Result payloads produced by the dispatcher, one constructor per
handler, carrying what distinguishes the responses. The last four are the
contents produced by duck-typed `tools/call` dispatch onto non-tool
properties: `reentrantContent` is the serialized envelope of a re-entrant
`handleRequest(args || {})` call (constant, because a modelled arguments
object carries no `jsonrpc` member, so the inner call always returns the
version-error envelope after one `null`-method log append);
`startContent` is the content whose text is `JSON.stringify(undefined)`
after a re-entrant `start()` resolves `undefined`; `protoToStringContent`
is the serialized `"[object Object]"` returned by the inherited
`toString`. -/
inductive RpcResultVal where
  | initializeResult (protocolVersion : String) (caps : InitCaps)
  | toolsList
  | promptsList
  | promptsCall
  | resourcesList
  | resourcesRead
  | loggingList
  | loggingRead
  | rootsList
  | rootsRead
  | prContent (r : PrResult)
  | tokenContent (token : String) (expiresAt : Nat)
  | logsContent (limit offset : Int)
  | reentrantContent
  | startContent
  | protoToStringContent
  | pong
deriving DecidableEq

/-- Response envelope: the echoed id (`none` emitted as `null`) and
either a result (`none` being the JSON `null` result) or an error. -/
structure RpcResponse where
  id : Option JsonRpcId
  out : Except RpcError (Option RpcResultVal)
deriving DecidableEq

/-- Mutable server state: the `initialized` flag of `FinalMCPServer` and
the token cache. -/
structure ServerState where
  initialized : Bool
  tok : TokenState
deriving DecidableEq

/-- Static environment of one dispatch: the derived `REPO_NAME`, the
workflow flags, and the upstream oracles with the current time. -/
structure DispatchEnv where
  repoName : String
  flags : WorkflowFlags
  oracle : StepOracle
  exch : Except UpstreamErr TokenResp
  now : Nat
deriving DecidableEq

/-- Outcome of `handleRequest`: the emitted response (`none` when no
response record is written), the state afterwards, the `logRequest`
method names appended in order (`none` logs a `null` method), and whether
`process.exit` was reached synchronously. -/
structure HandleOut where
  response : Option RpcResponse
  state : ServerState
  logs : List (Option String)
  exited : Bool
deriving DecidableEq

/-- Error-code selection in the dispatcher's catch: substring tests on
the thrown message (`err.message.includes(...)`), defaulting to `-32603`
(internal error). -/
def errCodeFor (msg : String) : Int :=
  if hasSub ("Server not initialized").data msg.data then -32002
  else if hasSub ("Unknown method").data msg.data then -32601
  else if hasSub ("Unsupported JSON-RPC version").data msg.data then -32600
  else -32603

/-- Error envelope returned by the catch for non-notification methods. -/
def errResponse (id : Option JsonRpcId) (msg : String) : RpcResponse :=
  { id := id, out := .error ⟨errCodeFor msg, msg⟩ }

/-- Success envelope. -/
def okResponse (id : Option JsonRpcId) (v : Option RpcResultVal) : RpcResponse :=
  { id := id, out := .ok v }

/-- Tool-name resolution of `tools/call`: when `REPO_NAME` is non-empty
and the name starts with `REPO_NAME + "_"`, the remainder is the actual
method name. -/
def actualToolName (repoName name : String) : String :=
  if !(repoName == "") && isStart (repoName ++ "_").data name.data then
    ⟨name.data.drop (repoName ++ "_").data.length⟩
  else name

/-- The `logs` tool: `limit` defaults to 50 and must lie in 1 to 1000,
`offset` defaults to 0 and must be non-negative; violations throw. -/
def logsTool (p : Option ReqParams) : Except String RpcResultVal :=
  if (p.bind ReqParams.logsLimit).getD 50 < 1 ∨ 1000 < (p.bind ReqParams.logsLimit).getD 50 then
    .error "Invalid limit parameter. Must be a number between 1 and 1000"
  else if (p.bind ReqParams.logsOffset).getD 0 < 0 then
    .error "Invalid offset parameter. Must be a non-negative number"
  else .ok (.logsContent ((p.bind ReqParams.logsLimit).getD 50)
    ((p.bind ReqParams.logsOffset).getD 0))

/-- Method dispatch of `handleRequest` after envelope validation, given
the current `initialized` flag `b`, the token cache, the extracted id,
the method name `mm` (a non-empty string), and the params. Handlers for
`ping` and `notifications/initialized` log once themselves; the `finally`
block logs every non-throwing handling once more; the catch logs failed
handlings once; `notifications/exit` calls `process.exit(0)` before any
logging.

Tool dispatch inside `tools/call` is duck-typed in the source:
`if (!this[actualMethodName]) throw ...` then
`await this[actualMethodName](args || {})`. The lookup therefore reaches
every property of the server object, and the model covers them all: the
tools `pr`, `token`, `logs`; the class methods `handleRequest` (called
re-entrantly on the arguments object, which has no `jsonrpc` member, so
the inner call logs one `null`-method entry and returns the constant
version-error envelope that is serialized as the tool content), `start`
(re-runs startup: it attempts the token prefetch through
`getAccessToken`, appends one `server_start` entry, resolves `undefined`,
and the serialized `undefined` becomes the content) and the inherited
`constructor` (calling a class constructor without `new` throws a
`TypeError`); the own string properties `name` and `version` (truthy but
not callable, so the call throws `this[actualMethodName] is not a
function`); the own boolean property `initialized` — the one
flag-dependent path: while the flag is `false` the property is falsy and
the `Unknown tool` error is thrown, while it is `true` the property is
truthy and calling it throws the not-a-function `TypeError`; and the
inherited `Object.prototype.toString` (returns `"[object Object]"`,
serialized as content). Deeper `Object.prototype` members (`valueOf`,
`hasOwnProperty`, ...) are elided and fall into the absent/`Unknown
tool` case; they are flag-independent in the source exactly as here. The
`Unknown tool` message's diagnostic tail (PROJECT_NAME and the
available-methods listing) is elided. -/
def dispatchMethod (env : DispatchEnv) (b : Bool) (tok : TokenState)
    (id : Option JsonRpcId) (mm : String) (p : Option ReqParams) : HandleOut :=
  if mm = "initialize" then
    { response := some (okResponse id (some (.initializeResult
        ((p.bind ReqParams.protocolVersion).getD "2025-06-18")
        ((p.map ReqParams.caps).getD ⟨false, false, false, false⟩))))
      state := ⟨true, tok⟩, logs := [some "initialize"], exited := false }
  else if mm = "tools/list" then
    { response := some (okResponse id (some .toolsList)), state := ⟨b, tok⟩
      logs := [some "tools/list"], exited := false }
  else if mm = "prompts/list" then
    { response := some (okResponse id (some .promptsList)), state := ⟨b, tok⟩
      logs := [some "prompts/list"], exited := false }
  else if mm = "prompts/call" then
    { response := some (okResponse id (some .promptsCall)), state := ⟨b, tok⟩
      logs := [some "prompts/call"], exited := false }
  else if mm = "resources/list" then
    { response := some (okResponse id (some .resourcesList)), state := ⟨b, tok⟩
      logs := [some "resources/list"], exited := false }
  else if mm = "resources/read" then
    { response := some (okResponse id (some .resourcesRead)), state := ⟨b, tok⟩
      logs := [some "resources/read"], exited := false }
  else if mm = "logging/list" then
    { response := some (okResponse id (some .loggingList)), state := ⟨b, tok⟩
      logs := [some "logging/list"], exited := false }
  else if mm = "logging/read" then
    { response := some (okResponse id (some .loggingRead)), state := ⟨b, tok⟩
      logs := [some "logging/read"], exited := false }
  else if mm = "roots/list" then
    { response := some (okResponse id (some .rootsList)), state := ⟨b, tok⟩
      logs := [some "roots/list"], exited := false }
  else if mm = "roots/read" then
    { response := some (okResponse id (some .rootsRead)), state := ⟨b, tok⟩
      logs := [some "roots/read"], exited := false }
  else if mm = "tools/call" then
    match p.bind ReqParams.toolName with
    | none =>
      { response := some (errResponse id "Missing tool name"), state := ⟨b, tok⟩
        logs := [some "tools/call"], exited := false }
    | some name =>
      if actualToolName env.repoName name = "pr" then
        { response := some (okResponse id (some (.prContent
            (prTool env.flags tok env.now env.exch env.oracle
              ((p.map ReqParams.toolTitle).getD .missing)).result)))
          state := ⟨b, (prTool env.flags tok env.now env.exch env.oracle
            ((p.map ReqParams.toolTitle).getD .missing)).tok⟩
          logs := ((prTool env.flags tok env.now env.exch env.oracle
            ((p.map ReqParams.toolTitle).getD .missing)).logs.map some) ++ [some "tools/call"]
          exited := false }
      else if actualToolName env.repoName name = "token" then
        match (getAccessToken tok env.now env.exch).result with
        | .ok tk =>
          { response := some (okResponse id (some (.tokenContent tk
              (getAccessToken tok env.now env.exch).state.tokenExpiresAt)))
            state := ⟨b, (getAccessToken tok env.now env.exch).state⟩
            logs := [some "token", some "tools/call"], exited := false }
        | .error e =>
          { response := some (errResponse id ("Failed to get access token: " ++ e.errMsg ++
              (if e.statusCode == 0 then "" else " (Status: " ++ toString e.statusCode ++ ")")))
            state := ⟨b, (getAccessToken tok env.now env.exch).state⟩
            logs := [some "token", some "tools/call"], exited := false }
      else if actualToolName env.repoName name = "logs" then
        match logsTool p with
        | .ok v =>
          { response := some (okResponse id (some v)), state := ⟨b, tok⟩
            logs := [some "tools/call"], exited := false }
        | .error m =>
          { response := some (errResponse id m), state := ⟨b, tok⟩
            logs := [some "tools/call"], exited := false }
      else if actualToolName env.repoName name = "handleRequest" then
        { response := some (okResponse id (some .reentrantContent)), state := ⟨b, tok⟩
          logs := [none, some "tools/call"], exited := false }
      else if actualToolName env.repoName name = "start" then
        { response := some (okResponse id (some .startContent))
          state := ⟨b, (getAccessToken tok env.now env.exch).state⟩
          logs := [some "server_start", some "tools/call"], exited := false }
      else if actualToolName env.repoName name = "constructor" then
        { response := some (errResponse id
            "Class constructor FinalMCPServer cannot be invoked without 'new'")
          state := ⟨b, tok⟩, logs := [some "tools/call"], exited := false }
      else if actualToolName env.repoName name = "name" then
        { response := some (errResponse id "this[actualMethodName] is not a function")
          state := ⟨b, tok⟩, logs := [some "tools/call"], exited := false }
      else if actualToolName env.repoName name = "version" then
        { response := some (errResponse id "this[actualMethodName] is not a function")
          state := ⟨b, tok⟩, logs := [some "tools/call"], exited := false }
      else if actualToolName env.repoName name = "toString" then
        { response := some (okResponse id (some .protoToStringContent)), state := ⟨b, tok⟩
          logs := [some "tools/call"], exited := false }
      else if actualToolName env.repoName name = "initialized" then
        if b then
          { response := some (errResponse id "this[actualMethodName] is not a function")
            state := ⟨b, tok⟩, logs := [some "tools/call"], exited := false }
        else
          { response := some (errResponse id ("Unknown tool: " ++ name)), state := ⟨b, tok⟩
            logs := [some "tools/call"], exited := false }
      else
        { response := some (errResponse id ("Unknown tool: " ++ name)), state := ⟨b, tok⟩
          logs := [some "tools/call"], exited := false }
  else if mm = "ping" then
    { response := some (okResponse id (some .pong)), state := ⟨b, tok⟩
      logs := [some "ping", some "ping"], exited := false }
  else if mm = "shutdown" then
    { response := some (okResponse id none), state := ⟨b, tok⟩
      logs := [some "shutdown"], exited := false }
  else if mm = "notifications/initialized" then
    { response := none, state := ⟨b, tok⟩
      logs := [some "notifications/initialized", some "notifications/initialized"]
      exited := false }
  else if mm = "notifications/exit" then
    { response := none, state := ⟨b, tok⟩, logs := [], exited := true }
  else
    { response := some (errResponse id ("Unknown method: " ++ mm)), state := ⟨b, tok⟩
      logs := [some mm], exited := false }

/-- The dispatcher `handleRequest`: envelope validation in source order
(object check, protocol version check, then extraction of `method`,
`params` and `id`, then the method check), the catch building the error
envelope (with the id variable as populated at the point of the throw),
and the per-method dispatch. -/
def handleRequest (env : DispatchEnv) (st : ServerState) (req : RpcRequest) : HandleOut :=
  match req with
  | .notObject =>
    { response := some (errResponse none "Invalid request: request must be an object")
      state := st, logs := [none], exited := false }
  | .obj jsonrpc id method p =>
    if jsonrpc = some "2.0" then
      match method with
      | some mm =>
        if mm = "" then
          { response := some (errResponse id
              "Invalid request: method is required and must be a string")
            state := st, logs := [some ""], exited := false }
        else dispatchMethod env st.initialized st.tok id mm p
      | none =>
        { response := some (errResponse id
            "Invalid request: method is required and must be a string")
          state := st, logs := [none], exited := false }
    else
      { response := some (errResponse none
          "Unsupported JSON-RPC version. Only 2.0 is supported.")
        state := st, logs := [none], exited := false }

/-- A valid envelope carrying the `notifications/exit` method, the only
handling that exits before logging. -/
def isExitRequest : RpcRequest → Bool
  | .obj j _ m _ => j == some "2.0" && m == some "notifications/exit"
  | .notObject => false

/-- A valid envelope carrying the `initialize` method, the only handling
that writes the `initialized` flag. -/
def isInitializeRequest : RpcRequest → Bool
  | .obj j _ m _ => j == some "2.0" && m == some "initialize"
  | .notObject => false

/-- A method-and-params pair whose handling performs the duck-typed
lookup `this["initialized"]`: a `tools/call` whose resolved tool name is
`initialized`. This is the only place any handler reads the flag. -/
def callsInitializedProp (env : DispatchEnv) (mm : String) (p : Option ReqParams) : Bool :=
  mm == "tools/call" &&
    (match p.bind ReqParams.toolName with
     | some name => actualToolName env.repoName name == "initialized"
     | none => false)

/-- A valid envelope whose handling reads the `initialized` flag through
the duck-typed tool lookup. -/
def resolvesInitialized (env : DispatchEnv) : RpcRequest → Bool
  | .obj j _ m p =>
    j == some "2.0" &&
      (match m with
       | some mm => callsInitializedProp env mm p
       | none => false)
  | .notObject => false

end GiteeSrv

namespace GiteeSrv

/-- Claim C3, counterexample. The claim states the cached expiry is
`now + returned_lifetime` with the 3600-second default applying only when
the upstream response omits `expires_in`. The code computes
`parsed.expires_in || 3600`, so a response that explicitly carries
`expires_in = 0` is also given the default: at `now = 1000` the cached
expiry is `1000 + 3600 * 1000`, not `1000 + 0 * 1000`. -/
theorem claim_C3_counterexample :
    (getAccessToken ⟨none, 0⟩ 1000 (.ok ⟨"tok", some 0⟩)).state.tokenExpiresAt =
      1000 + 3600 * 1000 ∧
    (getAccessToken ⟨none, 0⟩ 1000 (.ok ⟨"tok", some 0⟩)).state.tokenExpiresAt ≠
      1000 + 0 * 1000 := by
  decide

/-- Claim C3, amended. A cached non-empty token whose expiry exceeds
`now` by strictly more than 5 minutes is returned with no exchange and no
state change; otherwise the exchange runs and, on success, the token is
cached with expiry `now + lifetime * 1000` milliseconds where the
lifetime is `expires_in` when present and non-zero and 3600 otherwise
(the default also applies to an explicit `0`, which is falsy); on failure
the rejection is propagated and nothing is cached. -/
theorem claim_C3_amended (st : TokenState) (now : Nat)
    (ex : Except UpstreamErr TokenResp) :
    (∀ t, st.cachedAccessToken = some t → t ≠ "" →
      st.tokenExpiresAt > now + 5 * 60 * 1000 →
      getAccessToken st now ex = ⟨.ok t, st, false⟩) ∧
    (cacheHit st now = false →
      (getAccessToken st now ex).exchanged = true ∧
      (∀ resp, ex = .ok resp →
        getAccessToken st now ex =
          ⟨.ok resp.access_token,
            ⟨some resp.access_token, now + tokenLifetime resp * 1000⟩, true⟩) ∧
      (∀ e, ex = .error e → getAccessToken st now ex = ⟨.error e, st, true⟩)) := by
  constructor
  · intro t hc hne hexp
    have hhit : cacheHit st now = true := by
      unfold cacheHit tokenTruthy
      rw [hc]
      simp [hne, hexp]
    unfold getAccessToken
    rw [if_pos hhit, hc]
    rfl
  · intro hmiss
    refine ⟨?_, ?_, ?_⟩
    · unfold getAccessToken
      rw [if_neg (by simp [hmiss])]
      cases ex <;> rfl
    · intro resp hex
      unfold getAccessToken
      rw [if_neg (by simp [hmiss]), hex]
    · intro e hex
      unfold getAccessToken
      rw [if_neg (by simp [hmiss]), hex]

/-- Witness for `claim_C3_amended`: a fresh cache hit at a concrete state
and a forced exchange from the empty cache. -/
theorem claim_C3_amended_witness :
    getAccessToken ⟨some "tok", 1000000⟩ 0 (.ok ⟨"t2", none⟩) =
      ⟨.ok "tok", ⟨some "tok", 1000000⟩, false⟩ ∧
    (getAccessToken ⟨none, 0⟩ 0 (.ok ⟨"t2", none⟩)).exchanged = true :=
  ⟨(claim_C3_amended ⟨some "tok", 1000000⟩ 0 (.ok ⟨"t2", none⟩)).1 "tok" rfl
      (by decide) (by decide),
    ((claim_C3_amended ⟨none, 0⟩ 0 (.ok ⟨"t2", none⟩)).2 (by decide)).1⟩

/-- Claim C4. The source's token refresh is not single-flight: two
callers that both observe an expired or missing cache entry before either
writes the refreshed token each issue their own OAuth exchange. Under the
interleaved schedule both callers pass the phase-0 cache check first and
the exchange counter reaches 2; only the fully serialized schedule (the
second caller starts after the first stored its token) yields the single
exchange the claim requires. -/
theorem claim_C4_theorem :
    (raceRun 1000 ⟨"tok", some 3600⟩ [false, true, false, false, true, true]
      ⟨⟨none, 0⟩, 0, 0, 0⟩).exchCount = 2 ∧
    (raceRun 1000 ⟨"tok", some 3600⟩ [false, false, false, true, true, true]
      ⟨⟨none, 0⟩, 0, 0, 0⟩).exchCount = 1 := by
  decide

/-- Claim C7. A `pr` invocation whose title is missing, not a string, or
empty after trimming returns the validation failure payload built from
the thrown `Error('Missing or invalid title parameter')`, and issues no
upstream call at all: neither a token exchange nor the PR creation (nor
any follow-up step). -/
theorem claim_C7 (fl : WorkflowFlags) (tok : TokenState) (now : Nat)
    (exch : Except UpstreamErr TokenResp) (o : StepOracle) (t : TitleArg)
    (hinv : invalidTitle t = true) :
    prTool fl tok now exch o t =
      { result := .fail
          ⟨"Gitee Pull Request creation failed: Missing or invalid title parameter", none⟩
        calls := [], logs := ["pr"], tok := tok } := by
  unfold prTool
  rw [if_pos hinv]
  rfl

/-- Witness for `claim_C7` at a whitespace-only title. -/
theorem claim_C7_witness :
    invalidTitle (.str "  ") = true ∧
    prTool ⟨true, true, true⟩ ⟨none, 0⟩ 0 (.ok ⟨"t", none⟩)
      ⟨.ok ⟨201, none⟩, .ok ⟨200, none⟩, .ok ⟨200, none⟩, .ok ⟨200, none⟩⟩ (.str "  ") =
      { result := .fail
          ⟨"Gitee Pull Request creation failed: Missing or invalid title parameter", none⟩
        calls := [], logs := ["pr"], tok := ⟨none, 0⟩ } :=
  ⟨by decide,
    claim_C7 ⟨true, true, true⟩ ⟨none, 0⟩ 0 (.ok ⟨"t", none⟩)
      ⟨.ok ⟨201, none⟩, .ok ⟨200, none⟩, .ok ⟨200, none⟩, .ok ⟨200, none⟩⟩ (.str "  ")
      (by decide)⟩

lemma calls_shape (tok : TokenState) (now : Nat) (exch : Except UpstreamErr TokenResp)
    (fl : WorkflowFlags) (hn : Bool) (tr : Option GiteeResp) :
    (ApiCall.reviewPR ∈ tokenCalls tok now exch ++ [ApiCall.createPR] ++
        stepCalls fl.autoReview hn ApiCall.reviewPR ++ stepCalls fl.autoTest hn ApiCall.testPR ++
        mergeCalls fl hn tr ↔ fl.autoReview = true ∧ hn = true) ∧
    (ApiCall.testPR ∈ tokenCalls tok now exch ++ [ApiCall.createPR] ++
        stepCalls fl.autoReview hn ApiCall.reviewPR ++ stepCalls fl.autoTest hn ApiCall.testPR ++
        mergeCalls fl hn tr ↔ fl.autoTest = true ∧ hn = true) ∧
    (ApiCall.mergePR ∈ tokenCalls tok now exch ++ [ApiCall.createPR] ++
        stepCalls fl.autoReview hn ApiCall.reviewPR ++ stepCalls fl.autoTest hn ApiCall.testPR ++
        mergeCalls fl hn tr ↔
      fl.autoMerge = true ∧ hn = true ∧ mergeGate fl tr = true) := by
  obtain ⟨ar, at2, am⟩ := fl
  cases hex : (getAccessToken tok now exch).exchanged <;> cases ar <;> cases at2 <;>
    cases am <;> cases hn <;> cases tr <;>
    simp [tokenCalls, hex, stepCalls, mergeCalls, mergeGate]

/-- Claim C1. After a successful create step that produced a PR number,
with `AUTO_MERGE` set, the merge endpoint is called if and only if
`AUTO_TEST` is disabled or the test step resolved (a non-null outcome,
even with an empty body); when the gate fails the merge is skipped and
the overall call still succeeds. -/
theorem claim_C1 (fl : WorkflowFlags) (tok : TokenState) (now : Nat)
    (exch : Except UpstreamErr TokenResp) (o : StepOracle) (t : TitleArg)
    (r : GiteeResp) (a : String)
    (ht : invalidTitle t = false)
    (hg : (getAccessToken tok now exch).result = .ok a)
    (hc : o.create = .ok r)
    (hn : respHasNumber r = true)
    (hm : fl.autoMerge = true) :
    (ApiCall.mergePR ∈ (prTool fl tok now exch o t).calls ↔
      (fl.autoTest = false ∨ ∃ tr, o.test = .ok tr)) ∧
    ∃ s, (prTool fl tok now exch o t).result = .ok s := by
  obtain ⟨p, hp⟩ : ∃ p, r.data = some p := by
    cases hd : r.data with
    | none => rw [respHasNumber, hd] at hn; exact absurd hn (by simp)
    | some p => exact ⟨p, rfl⟩
  unfold prTool
  rw [if_neg (by simp [ht])]
  simp only [hg, hc, buildResponse, hp]
  constructor
  · rw [(calls_shape tok now exch fl (respHasNumber r)
      (stepResult fl.autoTest (respHasNumber r) o.test)).2.2]
    rw [hn, hm]
    cases hat : fl.autoTest <;> cases hot : o.test <;>
      simp [stepResult, mergeGate, hat, hot, hn]
  · exact ⟨_, rfl⟩

/-- Witness for `claim_C1`: auto-test enabled and succeeding with an
empty body, after which the merge endpoint is called. -/
theorem claim_C1_witness :
    (invalidTitle (.str "fix") = false ∧
      (getAccessToken ⟨some "tok", 1000000⟩ 0 (.ok ⟨"t", none⟩)).result = .ok "tok" ∧
      respHasNumber ⟨201, some ⟨some 5, some "u", none⟩⟩ = true) ∧
    (ApiCall.mergePR ∈ (prTool ⟨false, true, true⟩ ⟨some "tok", 1000000⟩ 0 (.ok ⟨"t", none⟩)
        ⟨.ok ⟨201, some ⟨some 5, some "u", none⟩⟩, .ok ⟨200, none⟩, .ok ⟨204, none⟩,
          .ok ⟨200, none⟩⟩ (.str "fix")).calls ↔
      ((⟨false, true, true⟩ : WorkflowFlags).autoTest = false ∨
        ∃ tr, (⟨.ok ⟨201, some ⟨some 5, some "u", none⟩⟩, .ok ⟨200, none⟩, .ok ⟨204, none⟩,
          .ok ⟨200, none⟩⟩ : StepOracle).test = .ok tr)) :=
  ⟨⟨by decide, by decide, by decide⟩,
    (claim_C1 ⟨false, true, true⟩ ⟨some "tok", 1000000⟩ 0 (.ok ⟨"t", none⟩)
      ⟨.ok ⟨201, some ⟨some 5, some "u", none⟩⟩, .ok ⟨200, none⟩, .ok ⟨204, none⟩,
        .ok ⟨200, none⟩⟩ (.str "fix") ⟨201, some ⟨some 5, some "u", none⟩⟩ "tok"
      (by decide) (by decide) (by decide) (by decide) (by decide)).1⟩

lemma stepResult_isSome (flag hasNum : Bool) (out : Except UpstreamErr GiteeResp) :
    (stepResult flag hasNum out).isSome = true ↔
      flag = true ∧ hasNum = true ∧ ∃ x, out = .ok x := by
  cases flag <;> cases hasNum <;> cases out <;> simp [stepResult]

lemma mergeResultOf_isSome (fl : WorkflowFlags) (hasNum : Bool) (tr : Option GiteeResp)
    (out : Except UpstreamErr GiteeResp) :
    (mergeResultOf fl hasNum tr out).isSome = true ↔
      fl.autoMerge = true ∧ hasNum = true ∧ mergeGate fl tr = true ∧ ∃ x, out = .ok x := by
  obtain ⟨ar, at2, am⟩ := fl
  cases am <;> cases hasNum <;> cases out <;> cases at2 <;> cases tr <;>
    simp [mergeResultOf, mergeGate]

/-- Claim C2, counterexample. The claim states the `pr` call fails only
when the create step fails. But when the create step succeeds with an
empty body (`data: null`, as `makeGiteeRequest` resolves for an empty 2xx
response), building the success response dereferences
`result.data.html_url`, and the resulting `TypeError` is caught and
returned as an overall failure even though the create step succeeded. -/
theorem claim_C2_counterexample :
    (prTool ⟨false, false, false⟩ ⟨some "tok", 1000000⟩ 0 (.ok ⟨"t", none⟩)
        ⟨.ok ⟨201, none⟩, .ok ⟨200, none⟩, .ok ⟨200, none⟩, .ok ⟨200, none⟩⟩
        (.str "fix")).result =
      .fail ⟨"Gitee Pull Request creation failed: Cannot read properties of null (reading 'html_url')",
        none⟩ ∧
    (⟨.ok ⟨201, none⟩, .ok ⟨200, none⟩, .ok ⟨200, none⟩, .ok ⟨200, none⟩⟩ : StepOracle).create =
      .ok ⟨201, none⟩ := by
  decide

/-- Claim C2, amended. The `pr` tool never throws: it always returns a
result object. The call succeeds exactly when the title is valid, the
token acquisition and the create call resolve, and the create payload is
non-null; otherwise the caught value (create failure, or the `TypeError`
raised when the create payload is null) is returned as the structured
failure payload. Review, test and merge failures never fail the call:
their sub-results are simply absent, and whether the review or test
endpoint is called does not depend on any other step's outcome. -/
theorem claim_C2_amended (fl : WorkflowFlags) (tok : TokenState) (now : Nat)
    (exch : Except UpstreamErr TokenResp) (o : StepOracle) (t : TitleArg) :
    ((∃ s, (prTool fl tok now exch o t).result = .ok s) ↔
      (invalidTitle t = false ∧ (∃ a, (getAccessToken tok now exch).result = .ok a) ∧
        ∃ r p, o.create = .ok r ∧ r.data = some p)) ∧
    (∀ s r, (prTool fl tok now exch o t).result = .ok s → o.create = .ok r →
      ((s.auto_review.isSome = true ↔
          fl.autoReview = true ∧ respHasNumber r = true ∧ ∃ x, o.review = .ok x) ∧
       (s.auto_test.isSome = true ↔
          fl.autoTest = true ∧ respHasNumber r = true ∧ ∃ x, o.test = .ok x) ∧
       (s.auto_merge.isSome = true ↔
          fl.autoMerge = true ∧ respHasNumber r = true ∧
            mergeGate fl s.auto_test = true ∧ ∃ x, o.merge = .ok x))) ∧
    (∀ r, invalidTitle t = false → (∃ a, (getAccessToken tok now exch).result = .ok a) →
      o.create = .ok r →
      ((ApiCall.reviewPR ∈ (prTool fl tok now exch o t).calls ↔
          fl.autoReview = true ∧ respHasNumber r = true) ∧
       (ApiCall.testPR ∈ (prTool fl tok now exch o t).calls ↔
          fl.autoTest = true ∧ respHasNumber r = true))) := by
  refine ⟨?_, ?_, ?_⟩
  · by_cases htv : invalidTitle t = true
    · unfold prTool
      rw [if_pos htv]
      simp [htv]
    · have ht2 : invalidTitle t = false := by revert htv; cases invalidTitle t <;> simp
      unfold prTool
      rw [if_neg htv]
      cases hga : (getAccessToken tok now exch).result with
      | error e => simp [hga, ht2]
      | ok a =>
        cases hoc : o.create with
        | error e => simp [hga, hoc, ht2]
        | ok r =>
          cases hd : r.data with
          | none => simp [hga, hoc, ht2, buildResponse, hd]
          | some p => simp [hga, hoc, ht2, buildResponse, hd]
  · intro s r hs hc
    by_cases htv : invalidTitle t = true
    · exfalso
      unfold prTool at hs
      rw [if_pos htv] at hs
      exact PrResult.noConfusion hs
    · unfold prTool at hs
      rw [if_neg htv] at hs
      cases hga : (getAccessToken tok now exch).result with
      | error e =>
        exfalso
        simp only [hga] at hs
        exact PrResult.noConfusion hs
      | ok a =>
        simp only [hga, hc] at hs
        cases hd : r.data with
        | none =>
          exfalso
          simp only [buildResponse, hd] at hs
          exact PrResult.noConfusion hs
        | some p =>
          simp only [buildResponse, hd] at hs
          have hs2 := PrResult.ok.inj hs
          subst hs2
          exact ⟨stepResult_isSome fl.autoReview (respHasNumber r) o.review,
            stepResult_isSome fl.autoTest (respHasNumber r) o.test,
            mergeResultOf_isSome fl (respHasNumber r)
              (stepResult fl.autoTest (respHasNumber r) o.test) o.merge⟩
  · intro r ht2 hga2 hc
    obtain ⟨a, hga⟩ := hga2
    unfold prTool
    rw [if_neg (by simp [ht2])]
    simp only [hga, hc]
    cases hd : r.data with
    | none =>
      simp only [buildResponse, hd]
      exact ⟨(calls_shape tok now exch fl (respHasNumber r)
          (stepResult fl.autoTest (respHasNumber r) o.test)).1,
        (calls_shape tok now exch fl (respHasNumber r)
          (stepResult fl.autoTest (respHasNumber r) o.test)).2.1⟩
    | some p =>
      simp only [buildResponse, hd]
      exact ⟨(calls_shape tok now exch fl (respHasNumber r)
          (stepResult fl.autoTest (respHasNumber r) o.test)).1,
        (calls_shape tok now exch fl (respHasNumber r)
          (stepResult fl.autoTest (respHasNumber r) o.test)).2.1⟩

/-- Witness for `claim_C2_amended`, instantiating the step-attempt part
at a concrete run with a failing review step: the test endpoint is still
called. -/
theorem claim_C2_amended_witness :
    (ApiCall.reviewPR ∈ (prTool ⟨true, true, false⟩ ⟨some "tok", 1000000⟩ 0 (.ok ⟨"t", none⟩)
        ⟨.ok ⟨201, some ⟨some 5, some "u", none⟩⟩, .error ⟨500, "boom"⟩, .ok ⟨204, none⟩,
          .ok ⟨200, none⟩⟩ (.str "fix")).calls ↔
      (⟨true, true, false⟩ : WorkflowFlags).autoReview = true ∧
        respHasNumber ⟨201, some ⟨some 5, some "u", none⟩⟩ = true) ∧
    (ApiCall.testPR ∈ (prTool ⟨true, true, false⟩ ⟨some "tok", 1000000⟩ 0 (.ok ⟨"t", none⟩)
        ⟨.ok ⟨201, some ⟨some 5, some "u", none⟩⟩, .error ⟨500, "boom"⟩, .ok ⟨204, none⟩,
          .ok ⟨200, none⟩⟩ (.str "fix")).calls ↔
      (⟨true, true, false⟩ : WorkflowFlags).autoTest = true ∧
        respHasNumber ⟨201, some ⟨some 5, some "u", none⟩⟩ = true) :=
  (claim_C2_amended ⟨true, true, false⟩ ⟨some "tok", 1000000⟩ 0 (.ok ⟨"t", none⟩)
      ⟨.ok ⟨201, some ⟨some 5, some "u", none⟩⟩, .error ⟨500, "boom"⟩, .ok ⟨204, none⟩,
        .ok ⟨200, none⟩⟩ (.str "fix")).2.2
    ⟨201, some ⟨some 5, some "u", none⟩⟩ (by decide) ⟨"tok", by decide⟩ (by decide)

/-- Claim C8, counterexample. The claim states every malformed envelope
yields an `InvalidRequest` error. The catch block maps the thrown message
to an error code by substring tests, and the message for a non-object
request (`Invalid request: request must be an object`) matches none of
them, so the envelope carries `-32603` (the code's `Internal error`), not
`-32600` (the code's `Invalid Request`). -/
theorem claim_C8_counterexample :
    (handleRequest ⟨"", ⟨false, false, false⟩,
        ⟨.ok ⟨201, none⟩, .ok ⟨200, none⟩, .ok ⟨200, none⟩, .ok ⟨200, none⟩⟩,
        .ok ⟨"t", none⟩, 0⟩ ⟨false, ⟨none, 0⟩⟩ .notObject).response =
      some ⟨none, .error ⟨-32603, "Invalid request: request must be an object"⟩⟩ ∧
    (-32603 : Int) ≠ -32600 := by
  decide

/-- Claim C8, amended. A wrong protocol version tag yields `-32600`
(`Invalid Request`) with a `null` correlation id even when the request
carries one, because the id is extracted only after the version check; a
non-object request yields `-32603` (`Internal error`) with a `null` id;
a missing (or empty, hence falsy) method yields `-32603` with the
request's id when present and `null` otherwise. -/
theorem claim_C8_amended (env : DispatchEnv) (st : ServerState) :
    (∀ jsonrpc id method p, jsonrpc ≠ some "2.0" →
      handleRequest env st (.obj jsonrpc id method p) =
        ⟨some ⟨none, .error ⟨-32600, "Unsupported JSON-RPC version. Only 2.0 is supported."⟩⟩,
          st, [none], false⟩) ∧
    (handleRequest env st .notObject =
      ⟨some ⟨none, .error ⟨-32603, "Invalid request: request must be an object"⟩⟩,
        st, [none], false⟩) ∧
    (∀ id p, handleRequest env st (.obj (some "2.0") id none p) =
      ⟨some ⟨id, .error ⟨-32603, "Invalid request: method is required and must be a string"⟩⟩,
        st, [none], false⟩) ∧
    (∀ id p, handleRequest env st (.obj (some "2.0") id (some "") p) =
      ⟨some ⟨id, .error ⟨-32603, "Invalid request: method is required and must be a string"⟩⟩,
        st, [some ""], false⟩) := by
  refine ⟨?_, rfl, fun id p => rfl, fun id p => rfl⟩
  intro jsonrpc id method p hj
  simp only [handleRequest]
  rw [if_neg hj]
  rfl

/-- Witness for `claim_C8_amended`: a wrong-version request that carries
an id is answered with a `null` id. -/
theorem claim_C8_amended_witness :
    (some "1.0" : Option String) ≠ some "2.0" ∧
    handleRequest ⟨"", ⟨false, false, false⟩,
        ⟨.ok ⟨201, none⟩, .ok ⟨200, none⟩, .ok ⟨200, none⟩, .ok ⟨200, none⟩⟩,
        .ok ⟨"t", none⟩, 0⟩ ⟨false, ⟨none, 0⟩⟩
        (.obj (some "1.0") (some (.num 7)) (some "ping") none) =
      ⟨some ⟨none, .error ⟨-32600, "Unsupported JSON-RPC version. Only 2.0 is supported."⟩⟩,
        ⟨false, ⟨none, 0⟩⟩, [none], false⟩ :=
  ⟨by decide,
    (claim_C8_amended ⟨"", ⟨false, false, false⟩,
        ⟨.ok ⟨201, none⟩, .ok ⟨200, none⟩, .ok ⟨200, none⟩, .ok ⟨200, none⟩⟩,
        .ok ⟨"t", none⟩, 0⟩ ⟨false, ⟨none, 0⟩⟩).1
      (some "1.0") (some (.num 7)) (some "ping") none (by decide)⟩

lemma dispatchMethod_logs_exit (env : DispatchEnv) (b : Bool) (tok : TokenState)
    (id : Option JsonRpcId) (p : Option ReqParams) :
    (dispatchMethod env b tok id "notifications/exit" p).logs = [] := rfl

lemma dispatchMethod_logs_ne (env : DispatchEnv) (b : Bool) (tok : TokenState)
    (id : Option JsonRpcId) (mm : String) (p : Option ReqParams)
    (hne : mm ≠ "notifications/exit") :
    (dispatchMethod env b tok id mm p).logs ≠ [] := by
  unfold dispatchMethod
  by_cases h1 : mm = "initialize"
  · rw [if_pos h1]; simp
  rw [if_neg h1]
  by_cases h2 : mm = "tools/list"
  · rw [if_pos h2]; simp
  rw [if_neg h2]
  by_cases h3 : mm = "prompts/list"
  · rw [if_pos h3]; simp
  rw [if_neg h3]
  by_cases h4 : mm = "prompts/call"
  · rw [if_pos h4]; simp
  rw [if_neg h4]
  by_cases h5 : mm = "resources/list"
  · rw [if_pos h5]; simp
  rw [if_neg h5]
  by_cases h6 : mm = "resources/read"
  · rw [if_pos h6]; simp
  rw [if_neg h6]
  by_cases h7 : mm = "logging/list"
  · rw [if_pos h7]; simp
  rw [if_neg h7]
  by_cases h8 : mm = "logging/read"
  · rw [if_pos h8]; simp
  rw [if_neg h8]
  by_cases h9 : mm = "roots/list"
  · rw [if_pos h9]; simp
  rw [if_neg h9]
  by_cases h10 : mm = "roots/read"
  · rw [if_pos h10]; simp
  rw [if_neg h10]
  by_cases h11 : mm = "tools/call"
  · rw [if_pos h11]
    cases hpn : p.bind ReqParams.toolName with
    | none => simp
    | some name =>
      simp only [hpn]
      by_cases hp : actualToolName env.repoName name = "pr"
      · rw [if_pos hp]; simp
      rw [if_neg hp]
      by_cases htk : actualToolName env.repoName name = "token"
      · rw [if_pos htk]
        cases hga : (getAccessToken tok env.now env.exch).result <;> simp [hga]
      rw [if_neg htk]
      by_cases hlg : actualToolName env.repoName name = "logs"
      · rw [if_pos hlg]
        cases hlt : logsTool p <;> simp [hlt]
      rw [if_neg hlg]
      by_cases hhr : actualToolName env.repoName name = "handleRequest"
      · rw [if_pos hhr]; simp
      rw [if_neg hhr]
      by_cases hst : actualToolName env.repoName name = "start"
      · rw [if_pos hst]; simp
      rw [if_neg hst]
      by_cases hct : actualToolName env.repoName name = "constructor"
      · rw [if_pos hct]; simp
      rw [if_neg hct]
      by_cases hnm : actualToolName env.repoName name = "name"
      · rw [if_pos hnm]; simp
      rw [if_neg hnm]
      by_cases hvs : actualToolName env.repoName name = "version"
      · rw [if_pos hvs]; simp
      rw [if_neg hvs]
      by_cases hts : actualToolName env.repoName name = "toString"
      · rw [if_pos hts]; simp
      rw [if_neg hts]
      by_cases hii : actualToolName env.repoName name = "initialized"
      · rw [if_pos hii]
        cases b <;> simp
      · rw [if_neg hii]; simp
  rw [if_neg h11]
  by_cases h12 : mm = "ping"
  · rw [if_pos h12]; simp
  rw [if_neg h12]
  by_cases h13 : mm = "shutdown"
  · rw [if_pos h13]; simp
  rw [if_neg h13]
  by_cases h14 : mm = "notifications/initialized"
  · rw [if_pos h14]; simp
  rw [if_neg h14, if_neg hne]
  simp

/-- Claim C9, counterexample. The claim states every handled request
appends exactly one Operation Log entry. The `ping` handler calls
`logRequest` itself and the `finally` block logs the same handling again,
so a single `ping` request appends two entries (both with method
`ping`). -/
theorem claim_C9_counterexample :
    (handleRequest ⟨"", ⟨false, false, false⟩,
        ⟨.ok ⟨201, none⟩, .ok ⟨200, none⟩, .ok ⟨200, none⟩, .ok ⟨200, none⟩⟩,
        .ok ⟨"t", none⟩, 0⟩ ⟨false, ⟨none, 0⟩⟩
        (.obj (some "2.0") (some (.num 1)) (some "ping") none)).logs =
      [some "ping", some "ping"] ∧
    ([some "ping", some "ping"] : List (Option String)).length ≠ 1 := by
  decide

/-- Claim C9, amended. Every handling appends at least one Operation Log
entry — the catch logs a failed handling once and the `finally` logs a
non-throwing handling once — except a valid `notifications/exit`
envelope, which calls `process.exit(0)` before any logging and appends
nothing. Some handlers log on their own in addition to the `finally`
entry: `ping` and `notifications/initialized` append two entries for one
handling, and tool calls append the tool's own entries; a plain
`tools/list` appends exactly one. -/
theorem claim_C9_amended (env : DispatchEnv) (st : ServerState) (req : RpcRequest) :
    ((handleRequest env st req).logs = [] ↔ isExitRequest req = true) ∧
    (∀ id p, (handleRequest env st (.obj (some "2.0") id (some "ping") p)).logs =
      [some "ping", some "ping"]) ∧
    (∀ id p, (handleRequest env st (.obj (some "2.0") id (some "tools/list") p)).logs =
      [some "tools/list"]) := by
  refine ⟨?_, fun id p => rfl, fun id p => rfl⟩
  cases req with
  | notObject => simp [handleRequest, isExitRequest]
  | obj j id m p =>
    by_cases hj : j = some "2.0"
    · subst hj
      cases m with
      | none => simp [handleRequest, isExitRequest]
      | some mm =>
        by_cases hmm : mm = ""
        · subst hmm
          have hred : handleRequest env st (.obj (some "2.0") id (some "") p) =
              ⟨some (errResponse id "Invalid request: method is required and must be a string"),
                st, [some ""], false⟩ := rfl
          rw [hred]
          simp [isExitRequest]
        · have hred : handleRequest env st (.obj (some "2.0") id (some mm) p) =
              if mm = "" then
                ⟨some (errResponse id "Invalid request: method is required and must be a string"),
                  st, [some ""], false⟩
              else dispatchMethod env st.initialized st.tok id mm p := rfl
          rw [hred, if_neg hmm]
          constructor
          · intro h
            have hm2 : mm = "notifications/exit" := by
              by_contra hne
              exact dispatchMethod_logs_ne env st.initialized st.tok id mm p hne h
            subst hm2
            rfl
          · intro h
            have hm2 : mm = "notifications/exit" := by
              simpa [isExitRequest] using h
            subst hm2
            exact dispatchMethod_logs_exit env st.initialized st.tok id p
    · simp only [handleRequest]
      rw [if_neg hj]
      simp [isExitRequest, hj]

lemma dispatchMethod_flag (env : DispatchEnv) (tok : TokenState) (id : Option JsonRpcId)
    (mm : String) (p : Option ReqParams) (b1 b2 : Bool)
    (hni : callsInitializedProp env mm p = false) :
    (dispatchMethod env b1 tok id mm p).response = (dispatchMethod env b2 tok id mm p).response ∧
    (dispatchMethod env b1 tok id mm p).logs = (dispatchMethod env b2 tok id mm p).logs ∧
    (dispatchMethod env b1 tok id mm p).exited = (dispatchMethod env b2 tok id mm p).exited ∧
    (dispatchMethod env b1 tok id mm p).state.tok =
      (dispatchMethod env b2 tok id mm p).state.tok ∧
    (dispatchMethod env b1 tok id mm p).state.initialized =
      (if mm = "initialize" then true else b1) := by
  by_cases h1 : mm = "initialize"
  · subst h1; simp [dispatchMethod]
  by_cases h2 : mm = "tools/list"
  · subst h2; simp [dispatchMethod]
  by_cases h3 : mm = "prompts/list"
  · subst h3; simp [dispatchMethod]
  by_cases h4 : mm = "prompts/call"
  · subst h4; simp [dispatchMethod]
  by_cases h5 : mm = "resources/list"
  · subst h5; simp [dispatchMethod]
  by_cases h6 : mm = "resources/read"
  · subst h6; simp [dispatchMethod]
  by_cases h7 : mm = "logging/list"
  · subst h7; simp [dispatchMethod]
  by_cases h8 : mm = "logging/read"
  · subst h8; simp [dispatchMethod]
  by_cases h9 : mm = "roots/list"
  · subst h9; simp [dispatchMethod]
  by_cases h10 : mm = "roots/read"
  · subst h10; simp [dispatchMethod]
  by_cases h11 : mm = "tools/call"
  · subst h11
    cases hpn : p.bind ReqParams.toolName with
    | none => simp [dispatchMethod, hpn]
    | some name =>
      have hini : ¬actualToolName env.repoName name = "initialized" := by
        simp only [callsInitializedProp, hpn] at hni
        simpa using hni
      by_cases hp : actualToolName env.repoName name = "pr"
      · simp [dispatchMethod, hpn, hp]
      by_cases htk : actualToolName env.repoName name = "token"
      · cases hga : (getAccessToken tok env.now env.exch).result <;>
          simp [dispatchMethod, hpn, hp, htk, hga]
      by_cases hlg : actualToolName env.repoName name = "logs"
      · cases hlt : logsTool p <;> simp [dispatchMethod, hpn, hp, htk, hlg, hlt]
      by_cases hhr : actualToolName env.repoName name = "handleRequest"
      · simp [dispatchMethod, hpn, hp, htk, hlg, hhr]
      by_cases hst : actualToolName env.repoName name = "start"
      · simp [dispatchMethod, hpn, hp, htk, hlg, hhr, hst]
      by_cases hct : actualToolName env.repoName name = "constructor"
      · simp [dispatchMethod, hpn, hp, htk, hlg, hhr, hst, hct]
      by_cases hnm : actualToolName env.repoName name = "name"
      · simp [dispatchMethod, hpn, hp, htk, hlg, hhr, hst, hct, hnm]
      by_cases hvs : actualToolName env.repoName name = "version"
      · simp [dispatchMethod, hpn, hp, htk, hlg, hhr, hst, hct, hnm, hvs]
      by_cases hts : actualToolName env.repoName name = "toString"
      · simp [dispatchMethod, hpn, hp, htk, hlg, hhr, hst, hct, hnm, hvs, hts]
      · simp [dispatchMethod, hpn, hp, htk, hlg, hhr, hst, hct, hnm, hvs, hts, hini]
  by_cases h12 : mm = "ping"
  · subst h12; simp [dispatchMethod]
  by_cases h13 : mm = "shutdown"
  · subst h13; simp [dispatchMethod]
  by_cases h14 : mm = "notifications/initialized"
  · subst h14; simp [dispatchMethod]
  by_cases h15 : mm = "notifications/exit"
  · subst h15; simp [dispatchMethod]
  simp [dispatchMethod, h1, h2, h3, h4, h5, h6, h7, h8, h9, h10, h11, h12, h13, h14, h15]

/-- Claim C10, counterexample. The claim states the `initialized` flag is
never read outside `initialize` and that every method is handled
identically whether or not `initialize` has been called. But `tools/call`
dispatches by the duck-typed lookup `this[actualMethodName]`, and for the
tool name `initialized` that lookup reads the flag itself: before
`initialize` the property is falsy and the handler throws
`Unknown tool: initialized`, while after `initialize` it is truthy and
calling it throws `this[actualMethodName] is not a function` — two
observably different error envelopes for the same request. -/
theorem claim_C10_counterexample :
    (handleRequest ⟨"", ⟨false, false, false⟩,
        ⟨.ok ⟨201, none⟩, .ok ⟨200, none⟩, .ok ⟨200, none⟩, .ok ⟨200, none⟩⟩,
        .ok ⟨"t", none⟩, 0⟩ ⟨false, ⟨none, 0⟩⟩
        (.obj (some "2.0") (some (.num 1)) (some "tools/call")
          (some ⟨none, ⟨false, false, false, false⟩, some "initialized",
            .missing, none, none⟩))).response =
      some ⟨some (.num 1), .error ⟨-32603, "Unknown tool: initialized"⟩⟩ ∧
    (handleRequest ⟨"", ⟨false, false, false⟩,
        ⟨.ok ⟨201, none⟩, .ok ⟨200, none⟩, .ok ⟨200, none⟩, .ok ⟨200, none⟩⟩,
        .ok ⟨"t", none⟩, 0⟩ ⟨true, ⟨none, 0⟩⟩
        (.obj (some "2.0") (some (.num 1)) (some "tools/call")
          (some ⟨none, ⟨false, false, false, false⟩, some "initialized",
            .missing, none, none⟩))).response =
      some ⟨some (.num 1), .error ⟨-32603, "this[actualMethodName] is not a function"⟩⟩ ∧
    (handleRequest ⟨"", ⟨false, false, false⟩,
        ⟨.ok ⟨201, none⟩, .ok ⟨200, none⟩, .ok ⟨200, none⟩, .ok ⟨200, none⟩⟩,
        .ok ⟨"t", none⟩, 0⟩ ⟨false, ⟨none, 0⟩⟩
        (.obj (some "2.0") (some (.num 1)) (some "tools/call")
          (some ⟨none, ⟨false, false, false, false⟩, some "initialized",
            .missing, none, none⟩))).response ≠
    (handleRequest ⟨"", ⟨false, false, false⟩,
        ⟨.ok ⟨201, none⟩, .ok ⟨200, none⟩, .ok ⟨200, none⟩, .ok ⟨200, none⟩⟩,
        .ok ⟨"t", none⟩, 0⟩ ⟨true, ⟨none, 0⟩⟩
        (.obj (some "2.0") (some (.num 1)) (some "tools/call")
          (some ⟨none, ⟨false, false, false, false⟩, some "initialized",
            .missing, none, none⟩))).response := by
  refine ⟨rfl, rfl, ?_⟩
  decide

/-- Claim C10, amended. The `initialized` flag is written only by
`initialize` and is read by exactly one path: the duck-typed tool lookup
of `tools/call`, whose behaviour for the resolved tool name `initialized`
depends on the flag (see the counterexample). For every request that does
not resolve that property — every other method, and `tools/call` on any
other name — the response, log appends, exit behaviour and token cache
are identical whatever the flag's value, so in particular repeated
`initialize` calls return the same result. -/
theorem claim_C10_amended (env : DispatchEnv) (tok : TokenState) (req : RpcRequest)
    (b1 b2 : Bool) (hni : resolvesInitialized env req = false) :
    (handleRequest env ⟨b1, tok⟩ req).response = (handleRequest env ⟨b2, tok⟩ req).response ∧
    (handleRequest env ⟨b1, tok⟩ req).logs = (handleRequest env ⟨b2, tok⟩ req).logs ∧
    (handleRequest env ⟨b1, tok⟩ req).exited = (handleRequest env ⟨b2, tok⟩ req).exited ∧
    (handleRequest env ⟨b1, tok⟩ req).state.tok = (handleRequest env ⟨b2, tok⟩ req).state.tok ∧
    (handleRequest env ⟨b1, tok⟩ req).state.initialized =
      (b1 || isInitializeRequest req) := by
  cases req with
  | notObject => exact ⟨rfl, rfl, rfl, rfl, by simp [handleRequest, isInitializeRequest]⟩
  | obj j id m p =>
    by_cases hj : j = some "2.0"
    · subst hj
      cases m with
      | none => exact ⟨rfl, rfl, rfl, rfl, by simp [handleRequest, isInitializeRequest]⟩
      | some mm =>
        have hni2 : callsInitializedProp env mm p = false := by
          simpa [resolvesInitialized] using hni
        by_cases hmm : mm = ""
        · subst hmm
          exact ⟨rfl, rfl, rfl, rfl, by simp [handleRequest, isInitializeRequest]⟩
        · have hred1 : handleRequest env ⟨b1, tok⟩ (.obj (some "2.0") id (some mm) p) =
              if mm = "" then
                ⟨some (errResponse id "Invalid request: method is required and must be a string"),
                  ⟨b1, tok⟩, [some ""], false⟩
              else dispatchMethod env b1 tok id mm p := rfl
          have hred2 : handleRequest env ⟨b2, tok⟩ (.obj (some "2.0") id (some mm) p) =
              if mm = "" then
                ⟨some (errResponse id "Invalid request: method is required and must be a string"),
                  ⟨b2, tok⟩, [some ""], false⟩
              else dispatchMethod env b2 tok id mm p := rfl
          rw [hred1, hred2, if_neg hmm, if_neg hmm]
          obtain ⟨q1, q2, q3, q4, q5⟩ := dispatchMethod_flag env tok id mm p b1 b2 hni2
          refine ⟨q1, q2, q3, q4, ?_⟩
          rw [q5]
          by_cases hin : mm = "initialize"
          · subst hin
            simp [isInitializeRequest]
          · rw [if_neg hin]
            simp [isInitializeRequest, hin]
    · simp [handleRequest, isInitializeRequest, hj]

/-- Witness for `claim_C10_amended`: a `ping` request is answered
identically before and after `initialize`. -/
theorem claim_C10_amended_witness :
    resolvesInitialized ⟨"", ⟨false, false, false⟩,
        ⟨.ok ⟨201, none⟩, .ok ⟨200, none⟩, .ok ⟨200, none⟩, .ok ⟨200, none⟩⟩,
        .ok ⟨"t", none⟩, 0⟩
      (.obj (some "2.0") (some (.num 1)) (some "ping") none) = false ∧
    (handleRequest ⟨"", ⟨false, false, false⟩,
        ⟨.ok ⟨201, none⟩, .ok ⟨200, none⟩, .ok ⟨200, none⟩, .ok ⟨200, none⟩⟩,
        .ok ⟨"t", none⟩, 0⟩ ⟨false, ⟨none, 0⟩⟩
        (.obj (some "2.0") (some (.num 1)) (some "ping") none)).response =
    (handleRequest ⟨"", ⟨false, false, false⟩,
        ⟨.ok ⟨201, none⟩, .ok ⟨200, none⟩, .ok ⟨200, none⟩, .ok ⟨200, none⟩⟩,
        .ok ⟨"t", none⟩, 0⟩ ⟨true, ⟨none, 0⟩⟩
        (.obj (some "2.0") (some (.num 1)) (some "ping") none)).response :=
  ⟨by decide,
    (claim_C10_amended ⟨"", ⟨false, false, false⟩,
        ⟨.ok ⟨201, none⟩, .ok ⟨200, none⟩, .ok ⟨200, none⟩, .ok ⟨200, none⟩⟩,
        .ok ⟨"t", none⟩, 0⟩ ⟨none, 0⟩
      (.obj (some "2.0") (some (.num 1)) (some "ping") none) false true (by decide)).1⟩

lemma dropWhile_cons_of_neg {c : Char} {l : List Char} (h : isJsWhite c = false) :
    List.dropWhile isJsWhite (c :: l) = c :: l := by
  simp [List.dropWhile, h]

lemma trimChars_eq_self {l : List Char} {c d : Char} {u v : List Char}
    (hhead : l = c :: u) (hrev : l.reverse = d :: v)
    (hc : isJsWhite c = false) (hd : isJsWhite d = false) :
    trimChars l = l := by
  unfold trimChars
  rw [hhead, dropWhile_cons_of_neg hc, ← hhead, hrev, dropWhile_cons_of_neg hd, ← hrev,
    List.reverse_reverse]

lemma stripCaseIns_append {ps l r : List Char} (h : stripCaseIns ps l = some r) :
    ∃ p, l = p ++ r := by
  induction ps generalizing l with
  | nil =>
    unfold stripCaseIns at h
    exact ⟨[], by simpa using h⟩
  | cons p ps ih =>
    match l with
    | [] => simp [stripCaseIns] at h
    | c :: cs =>
      unfold stripCaseIns at h
      by_cases hc : (lowerAscii c == lowerAscii p) = true
      · rw [if_pos hc] at h
        obtain ⟨q, hq⟩ := ih h
        exact ⟨c :: q, by simp [hq]⟩
      · rw [if_neg hc] at h
        exact absurd h (by simp)

lemma stripCaseIns_head {p : Char} {ps l r : List Char}
    (h : stripCaseIns (p :: ps) l = some r) :
    ∃ c cs, l = c :: cs ∧ lowerAscii c = lowerAscii p := by
  match l with
  | [] => simp [stripCaseIns] at h
  | c :: cs =>
    unfold stripCaseIns at h
    by_cases hc : (lowerAscii c == lowerAscii p) = true
    · exact ⟨c, cs, rfl, by simpa using hc⟩
    · rw [if_neg hc] at h
      exact absurd h (by simp)

lemma white_lower_ne_b {c : Char} (h : isJsWhite c = true) : lowerAscii c ≠ 'b' := by
  simp only [isJsWhite, Bool.or_eq_true, beq_iff_eq] at h
  obtain ((((((h | h) | h) | h) | h) | h) | h) | h := h <;> subst h <;> decide

lemma innerTail_last {rs : List Char} (h : innerTail rs = true) :
    ∃ u, rs = u ++ [')'] := by
  induction rs with
  | nil => simp [innerTail] at h
  | cons c cs ih =>
    by_cases hc : (c == ')') = true
    · simp only [innerTail, if_pos hc] at h
      refine ⟨[], ?_⟩
      have hcs : cs = [] := by simpa using h
      have hc2 : c = ')' := by simpa using hc
      simp [hcs, hc2]
    · simp only [innerTail, if_neg hc] at h
      obtain ⟨u, hu⟩ := ih h
      exact ⟨c :: u, by simp [hu]⟩

lemma innerChk_last {rs : List Char} (h : innerChk rs = true) :
    ∃ u, rs = u ++ [')'] := by
  match rs with
  | [] => simp [innerChk] at h
  | c :: cs =>
    by_cases hc : (c == ')') = true
    · simp only [innerChk, if_pos hc] at h
      exact absurd h (by simp)
    · simp only [innerChk, if_neg hc] at h
      obtain ⟨u, hu⟩ := innerTail_last h
      exact ⟨c :: u, by simp [hu]⟩

lemma branchPatternTest_shape {l : List Char} (h : branchPatternTest l = true) :
    (∃ c cs, l = c :: cs ∧ isJsWhite c = false) ∧ ∃ u, l = u ++ [')'] := by
  unfold branchPatternTest at h
  cases hs : stripCaseIns branchPat l with
  | none =>
    simp only [hs] at h
    exact absurd h (by simp)
  | some r =>
    simp only [hs] at h
    constructor
    · obtain ⟨c, cs, hl, hlow⟩ := stripCaseIns_head (by simpa [branchPat] using hs)
      refine ⟨c, cs, hl, ?_⟩
      by_contra hw
      have hw2 : isJsWhite c = true := by
        cases hcc : isJsWhite c
        · exact absurd hcc hw
        · rfl
      exact white_lower_ne_b hw2 (by simpa using hlow)
    · cases hd : r.dropWhile isJsWhite with
      | nil =>
        simp only [hd] at h
        exact absurd h (by simp)
      | cons a rest =>
        simp only [hd] at h
        by_cases ha : (a == '(') = true
        · rw [if_pos ha] at h
          obtain ⟨u, hu⟩ := innerChk_last h
          obtain ⟨p, hp⟩ := stripCaseIns_append hs
          have hr : r = r.takeWhile isJsWhite ++ (a :: rest) := by
            conv_lhs => rw [← List.takeWhile_append_dropWhile (p := isJsWhite) (l := r)]
            rw [hd]
          refine ⟨p ++ r.takeWhile isJsWhite ++ (a :: u), ?_⟩
          calc l = p ++ r := hp
            _ = p ++ (r.takeWhile isJsWhite ++ (a :: rest)) := congrArg (p ++ ·) hr
            _ = p ++ (r.takeWhile isJsWhite ++ (a :: (u ++ [')']))) := by rw [hu]
            _ = (p ++ r.takeWhile isJsWhite ++ (a :: u)) ++ [')'] := by simp
        · rw [if_neg ha] at h
          exact absurd h (by simp)

lemma innerTail_append {ts : List Char} (h : ')' ∉ ts) :
    innerTail (ts ++ [')']) = true := by
  induction ts with
  | nil => decide
  | cons c cs ih =>
    have hc : ¬c = ')' := fun hcc => h (by simp [hcc])
    have hcs : ')' ∉ cs := fun hm => h (by simp [hm])
    simpa [innerTail, hc] using ih hcs

lemma wrap_matches {c : Char} {ts : List Char} (hnp : ')' ∉ c :: ts) :
    branchPatternTest
      ('b' :: 'r' :: 'a' :: 'n' :: 'c' :: 'h' :: ' ' :: '(' :: ((c :: ts) ++ [')'])) = true := by
  have hc : ¬(c == ')') = true := by
    simp only [beq_iff_eq]
    intro hcc
    exact hnp (by simp [hcc])
  have hts : ')' ∉ ts := fun hm => hnp (by simp [hm])
  unfold branchPatternTest
  have hstrip : stripCaseIns branchPat
      ('b' :: 'r' :: 'a' :: 'n' :: 'c' :: 'h' :: ' ' :: '(' :: ((c :: ts) ++ [')'])) =
      some (' ' :: '(' :: ((c :: ts) ++ [')'])) := by
    simp [branchPat, stripCaseIns]
  simp only [hstrip]
  have hdrop : (' ' :: '(' :: ((c :: ts) ++ [')'])).dropWhile isJsWhite =
      '(' :: ((c :: ts) ++ [')']) := by
    simp [List.dropWhile, isJsWhite]
  simp only [hdrop]
  simpa [innerChk, hc] using innerTail_append hts

lemma jsData_append (a b : String) : (a ++ b).data = a.data ++ b.data := rfl

lemma jsTrim_fix {s : String} {c d : Char} {u v : List Char}
    (hhead : s.data = c :: u) (hrev : s.data.reverse = d :: v)
    (hc : isJsWhite c = false) (hd : isJsWhite d = false) :
    jsTrim s = s := by
  show (⟨trimChars s.data⟩ : String) = s
  rw [trimChars_eq_self hhead hrev hc hd]

lemma wrap_data (t : String) :
    ("branch (" ++ t ++ ")").data =
      'b' :: 'r' :: 'a' :: 'n' :: 'c' :: 'h' :: ' ' :: '(' :: (t.data ++ [')']) := by
  rw [jsData_append, jsData_append]
  have h1 : ("branch (").data = ['b', 'r', 'a', 'n', 'c', 'h', ' ', '('] := rfl
  have h2 : (")").data = [')'] := rfl
  rw [h1, h2]
  simp

lemma wrap_fixed (t : String) : jsTrim ("branch (" ++ t ++ ")") = "branch (" ++ t ++ ")" := by
  apply jsTrim_fix (c := 'b') (d := ')')
    (u := 'r' :: 'a' :: 'n' :: 'c' :: 'h' :: ' ' :: '(' :: (t.data ++ [')']))
    (v := (('b' :: 'r' :: 'a' :: 'n' :: 'c' :: 'h' :: ' ' :: '(' :: t.data).reverse))
  · exact wrap_data t
  · rw [wrap_data t]
    have : 'b' :: 'r' :: 'a' :: 'n' :: 'c' :: 'h' :: ' ' :: '(' :: (t.data ++ [')']) =
        ('b' :: 'r' :: 'a' :: 'n' :: 'c' :: 'h' :: ' ' :: '(' :: t.data) ++ [')'] := by simp
    rw [this]
    simp
  · decide
  · decide

lemma wrap_ne_empty (t : String) : ("branch (" ++ t ++ ")") ≠ "" := by
  intro h
  have : ("branch (" ++ t ++ ")").data = ("" : String).data := by rw [h]
  rw [wrap_data t] at this
  exact absurd this (by simp)

lemma wrap_tests_true {t : String} {c : Char} {ts : List Char}
    (hd : t.data = c :: ts) (hnp : ')' ∉ t.data) :
    branchPatternTest ("branch (" ++ t ++ ")").data = true := by
  rw [wrap_data t, hd]
  exact wrap_matches (by rw [hd] at hnp; exact hnp)

end GiteeSrv

namespace GiteeSrv

/-- Claim C5, counterexample. The claim states that `formatBranchName` is
idempotent on every non-empty string. It is not: the regex
`/^branch\s*\([^)]+\)$/i` forbids `)` inside the parentheses and requires
non-empty inner content, so `formatBranchName ")" = "branch ())"` does not
match the pattern and is wrapped a second time. -/
theorem claim_C5_counterexample :
    formatBranchName (formatBranchName ")") ≠ formatBranchName ")" := by
  decide

/-- Claim C5, amended. The formatter trims its input before testing and
wrapping (so inputs are not always returned or wrapped verbatim), and the
regex inner content must be a non-empty run of non-`)` characters.
Idempotence `format (format x) = format x` holds for every non-empty
string `x` whose trimmed form either contains no `)` and is non-empty, or
already matches the pattern; it fails in general (see the
counterexample). -/
theorem claim_C5_amended (x : String) (hx : x ≠ "")
    (h : ((jsTrim x).data ≠ [] ∧ ')' ∉ (jsTrim x).data) ∨
      branchPatternTest (jsTrim x).data = true) :
    formatBranchName (formatBranchName x) = formatBranchName x := by
  have hfx : formatBranchName x =
      if branchPatternTest (jsTrim x).data then jsTrim x
      else "branch (" ++ jsTrim x ++ ")" := by
    unfold formatBranchName
    rw [if_neg hx]
  by_cases htest : branchPatternTest (jsTrim x).data = true
  · have hfx2 : formatBranchName x = jsTrim x := by rw [hfx, if_pos htest]
    obtain ⟨⟨c, cs, hhead, hwc⟩, ⟨u, hlast⟩⟩ := branchPatternTest_shape htest
    have hjt : jsTrim (jsTrim x) = jsTrim x := by
      apply jsTrim_fix hhead (d := ')') (v := u.reverse) ?_ hwc (by decide)
      rw [hlast]
      simp
    have htne : jsTrim x ≠ "" := by
      intro hteq
      rw [hteq] at hhead
      exact absurd hhead (by simp)
    rw [hfx2]
    unfold formatBranchName
    rw [if_neg htne, hjt, if_pos htest]
  · have hfx2 : formatBranchName x = "branch (" ++ jsTrim x ++ ")" := by
      rw [hfx, if_neg htest]
    rcases h with ⟨hne, hnp⟩ | htest2
    · cases hd : (jsTrim x).data with
      | nil => exact absurd hd hne
      | cons c ts =>
        have hy : branchPatternTest ("branch (" ++ jsTrim x ++ ")").data = true :=
          wrap_tests_true hd hnp
        rw [hfx2]
        unfold formatBranchName
        rw [if_neg (wrap_ne_empty (jsTrim x)), wrap_fixed (jsTrim x), if_pos hy]
    · exact absurd htest2 htest

/-- Witness for `claim_C5_amended` at `x = "dev"`. -/
theorem claim_C5_amended_witness :
    (("dev" : String) ≠ "" ∧
      (((jsTrim "dev").data ≠ [] ∧ ')' ∉ (jsTrim "dev").data) ∨
        branchPatternTest (jsTrim "dev").data = true)) ∧
    formatBranchName (formatBranchName "dev") = formatBranchName "dev" :=
  ⟨⟨by decide, by decide⟩, claim_C5_amended "dev" (by decide) (by decide)⟩

lemma collectValid_eq_filter (ls : List (List Char)) :
    collectValid ls = ls.filter validLabel := by
  induction ls with
  | nil => rfl
  | cons l ls ih =>
    by_cases hv : validLabel l = true
    · simp [collectValid, List.filter, hv, ih]
    · simp [collectValid, List.filter, hv, ih]

/-- Claim C6. Label pre-processing comma-splits and trims the configured
label string, drops empty entries, keeps exactly the labels that are 2 to
20 characters of letters, digits, underscore, or CJK ideographs, and
returns `none` (field omitted) when no label survives; on the concrete
input of the claim the survivors are exactly `bug`, `performance`, `ab`. -/
theorem claim_C6 :
    processLabels "bug,performance,x,ab,toolongtoolongtoolongtoolong" =
      some ["bug", "performance", "ab"] ∧
    (∀ env : String,
      processLabels env =
        (if ((labelCandidates (trimChars env.data)).filter validLabel).isEmpty then none
         else some (((labelCandidates (trimChars env.data)).filter validLabel).map
           fun l => (⟨l⟩ : String)))) ∧
    (∀ env : String, ∀ ls : List String, processLabels env = some ls →
      ls ≠ [] ∧ ∀ s ∈ ls,
        2 ≤ s.data.length ∧ s.data.length ≤ 20 ∧ s.data.all isLabelChar = true) := by
  refine ⟨by decide, ?_, ?_⟩
  · intro env
    unfold processLabels
    by_cases he : (trimChars env.data).isEmpty = true
    · rw [if_pos he]
      have he2 : trimChars env.data = [] := by simpa using he
      rw [he2]
      decide
    · rw [if_neg he, collectValid_eq_filter]
  · intro env ls hls
    unfold processLabels at hls
    by_cases he : (trimChars env.data).isEmpty = true
    · rw [if_pos he] at hls
      exact absurd hls (by simp)
    · rw [if_neg he, collectValid_eq_filter] at hls
      by_cases hv : ((labelCandidates (trimChars env.data)).filter validLabel).isEmpty = true
      · rw [if_pos hv] at hls
        exact absurd hls (by simp)
      · rw [if_neg hv] at hls
        have hls2 : ls = ((labelCandidates (trimChars env.data)).filter validLabel).map
            fun l => (⟨l⟩ : String) := by
          have := Option.some.inj hls
          exact this.symm
        constructor
        · intro hnil
          rw [hls2] at hnil
          have : ((labelCandidates (trimChars env.data)).filter validLabel) = [] := by
            simpa using hnil
          rw [this] at hv
          exact hv rfl
        · intro s hs
          rw [hls2] at hs
          obtain ⟨l, hlmem, hleq⟩ := List.mem_map.mp hs
          have hvl : validLabel l = true := List.of_mem_filter hlmem
          have hsd : s.data = l := by rw [← hleq]
          simp only [validLabel, Bool.and_eq_true, decide_eq_true_eq] at hvl
          exact ⟨by rw [hsd]; exact hvl.1.1, by rw [hsd]; exact hvl.1.2, by rw [hsd]; exact hvl.2⟩

/-- Witness for `claim_C6`, instantiating its universally quantified parts
at the concrete environment string of the claim. -/
theorem claim_C6_witness :
    processLabels "bug,performance,x,ab,toolongtoolongtoolongtoolong" =
      some ["bug", "performance", "ab"] ∧
    (["bug", "performance", "ab"] : List String) ≠ [] ∧
    ∀ s ∈ (["bug", "performance", "ab"] : List String),
      2 ≤ s.data.length ∧ s.data.length ≤ 20 ∧ s.data.all isLabelChar = true :=
  ⟨claim_C6.1,
    claim_C6.2.2 "bug,performance,x,ab,toolongtoolongtoolongtoolong"
      ["bug", "performance", "ab"] claim_C6.1⟩

end GiteeSrv
